import Mathlib

/-!
Shallow embedding of the lvgl-msg-bus message bus and reactive data store
(src/src/message_bus.cc, src/src/data_store.cc, headers under
src/include/lvgl_msg_bus/).

Modelling conventions:
- machine integers are Nat with an explicit `% 2^32` wherever the C code
  relies on uint32_t wraparound (the subscription-id counter, the tick
  subtraction in the throttle, and the store's topic_base + key addition);
- a payload buffer of `size` bytes is a `List Nat` of that length, and
  truncation is `List.take`;
- callbacks cannot be compared in a shallow embedding, so a subscriber's
  callback is identified by its entry's subscription id and an actual
  invocation is recorded as an explicit `Delivery` event returned by
  `MessageBus.Publish`;
- the FreeRTOS mutex always succeeds (the single-threaded model has no
  contention, so the timeout branches are unreachable);
- the heap-allocation outcome of the LvglAsync handoff path is an oracle
  `allocOk : Nat -> Bool` (per subscription id) passed to Publish;
- the two `initialized_` flags become the Boolean field `inited` (renamed).
-/

namespace msgbus

/-- 2^32, the modulus of the uint32_t arithmetic used by the C code. -/
def U32 : Nat := 4294967296

/-- DeliveryMode from message_bus.h: synchronous in the publisher's thread,
or deferred to the LVGL thread via lv_async_call. -/
inductive DeliveryMode where
  | Immediate
  | LvglAsync
deriving DecidableEq

/-- SubscriberEntry as constructed and scanned by message_bus.cc
(id, topic, mode, min_interval_ticks, last_delivery_tick; the callback
field is represented by the id, see the module comment). -/
structure SubscriberEntry where
  id : Nat
  topic : Nat
  mode : DeliveryMode
  minIntervalTicks : Nat
  lastDeliveryTick : Nat
deriving DecidableEq

/-- BusConfig from message_bus.h. -/
structure BusConfig where
  maxSubscribers : Nat := 32
  maxDataSize : Nat := 512
deriving DecidableEq

/-- The MessageBus singleton's state (initialized_, config_, subscribers_,
next_id_). -/
structure BusState where
  inited : Bool := false
  config : BusConfig := {}
  subscribers : List SubscriberEntry := []
  nextId : Nat := 1
deriving DecidableEq

/-- One recorded callback invocation: which subscription fired, with which
Message fields (topic, payload bytes, timestamp). -/
structure Delivery where
  subId : Nat
  topic : Nat
  payload : List Nat
  timestamp : Nat
deriving DecidableEq

/-- FreeRTOS pdMS_TO_TICKS: milliseconds to ticks at a given tick rate. -/
def pdMSToTicks (hz ms : Nat) : Nat := ms * hz / 1000

/-- MessageBus::Subscribe (message_bus.cc lines 66-98).  `cbValid` models
whether the std::function argument is non-empty.  Returns the new bus state
and the returned SubscriptionId (0 = kInvalidSubscription on failure). -/
def MessageBus.Subscribe (bus : BusState) (topic : Nat) (cbValid : Bool)
    (mode : DeliveryMode) (minIntervalMs hz : Nat) : BusState × Nat :=
  if !bus.inited || !cbValid then (bus, 0)
  else
    let id := bus.nextId
    let next0 := (bus.nextId + 1) % U32
    let next := if next0 = 0 then 1 else next0
    let ticks := if minIntervalMs > 0 then pdMSToTicks hz minIntervalMs else 0
    ({ bus with
        subscribers := bus.subscribers ++ [⟨id, topic, mode, ticks, 0⟩],
        nextId := next },
     id)

/-- The erase-first-match loop of MessageBus::Unsubscribe
(message_bus.cc lines 114-120). -/
def eraseFirstId : List SubscriberEntry → Nat → List SubscriberEntry
  | [], _ => []
  | s :: rest, i => if s.id = i then rest else s :: eraseFirstId rest i

/-- MessageBus::Unsubscribe (message_bus.cc lines 104-123). -/
def MessageBus.Unsubscribe (bus : BusState) (id : Nat) : BusState :=
  if id = 0 || !bus.inited then bus
  else { bus with subscribers := eraseFirstId bus.subscribers id }

/-- The uint32_t subtraction `now - last` of the throttle check. -/
def elapsed32 (now last : Nat) : Nat :=
  (now % U32 + U32 - last % U32) % U32

/-- The throttle test of MessageBus::Publish (message_bus.cc lines 155-160):
an entry passes when unthrottled or when the elapsed ticks reach the
minimum interval. -/
def passesThrottle (now : Nat) (s : SubscriberEntry) : Bool :=
  s.minIntervalTicks == 0 ||
    decide (s.minIntervalTicks ≤ elapsed32 now s.lastDeliveryTick)

/-- An entry is snapshotted by Publish iff its topic matches exactly and it
passes the throttle (message_bus.cc lines 153-160). -/
def matchesPred (topic now : Nat) (s : SubscriberEntry) : Bool :=
  s.topic == topic && passesThrottle now s

/-- Effect of Publish's scan loop on one registry entry: a snapshotted
entry gets last_delivery_tick := now, any other entry is untouched
(message_bus.cc line 161). -/
def publishScanEntry (topic now : Nat) (s : SubscriberEntry) : SubscriberEntry :=
  if matchesPred topic now s then { s with lastDeliveryTick := now } else s

/-- Delivery of one snapshotted entry (message_bus.cc lines 173-197):
Immediate mode always invokes the callback; LvglAsync invokes it iff the
payload-block allocation succeeds, otherwise that one delivery is dropped. -/
def deliverOne (topic : Nat) (payload : List Nat) (now : Nat)
    (allocOk : Nat → Bool) (s : SubscriberEntry) : Option Delivery :=
  match s.mode with
  | .Immediate => some ⟨s.id, topic, payload, now⟩
  | .LvglAsync =>
      if allocOk s.id then some ⟨s.id, topic, payload, now⟩ else none

/-- MessageBus::Publish (message_bus.cc lines 129-199): no-op when not
initialized; oversize payloads are truncated to max_data_size; the scan
updates last_delivery_tick of every matching, throttle-passing entry and
snapshots it; each snapshotted entry is then delivered outside the lock. -/
def MessageBus.Publish (bus : BusState) (topic : Nat) (data : List Nat)
    (now : Nat) (allocOk : Nat → Bool) : BusState × List Delivery :=
  if !bus.inited then (bus, [])
  else
    let payload := data.take bus.config.maxDataSize
    let matched := bus.subscribers.filter (matchesPred topic now)
    ({ bus with subscribers := bus.subscribers.map (publishScanEntry topic now) },
     matched.filterMap (deliverOne topic payload now allocOk))

/-- One Publish call's arguments, for reasoning about sequences of
publishes. -/
structure PubCall where
  topic : Nat
  data : List Nat
  now : Nat

/-- A sequence of Publish calls, collecting every delivery event. -/
def publishMany (allocOk : Nat → Bool) :
    List PubCall → BusState → BusState × List Delivery
  | [], bus => (bus, [])
  | c :: cs, bus =>
      ((publishMany allocOk cs
          (MessageBus.Publish bus c.topic c.data c.now allocOk).fst).fst,
       (MessageBus.Publish bus c.topic c.data c.now allocOk).snd ++
         (publishMany allocOk cs
           (MessageBus.Publish bus c.topic c.data c.now allocOk).fst).snd)

/-- n successive successful Subscribe calls (non-empty callback, no
throttle), collecting the returned ids in order. -/
def subscribeN (topic : Nat) (mode : DeliveryMode) :
    Nat → BusState → BusState × List Nat
  | 0, bus => (bus, [])
  | n + 1, bus =>
      ((subscribeN topic mode n
          (MessageBus.Subscribe bus topic true mode 0 0).fst).fst,
       (MessageBus.Subscribe bus topic true mode 0 0).snd ::
         (subscribeN topic mode n
           (MessageBus.Subscribe bus topic true mode 0 0).fst).snd)

/-- DataStoreConfig from data_store.h. -/
structure DataStoreConfig where
  maxEntrySize : Nat := 256
deriving DecidableEq

/-- The DataStore singleton's state (initialized_, config_, topic_base_,
entries_; the std::map becomes an association list with unique keys). -/
structure StoreState where
  inited : Bool := false
  config : DataStoreConfig := {}
  topicBase : Nat := 0x8000
  entries : List (Nat × List Nat) := []
deriving DecidableEq

/-- entries_.find(key) of the std::map, as association-list lookup. -/
def lookupEntry : List (Nat × List Nat) → Nat → Option (List Nat)
  | [], _ => none
  | (k, v) :: rest, key => if k = key then some v else lookupEntry rest key

/-- Insert-or-assign on the entries map: the combined effect of the
emplace branch (new key) and the assign branch (existing key) of
DataStore::SetRaw. -/
def setEntry : List (Nat × List Nat) → Nat → List Nat → List (Nat × List Nat)
  | [], key, v => [(key, v)]
  | (k, w) :: rest, key, v =>
      if k = key then (key, v) :: rest else (k, w) :: setEntry rest key v

/-- DataStore::SetRaw (data_store.cc lines 62-105).  `data = none` models a
null data pointer, `some bytes` a buffer of `bytes.length = size` bytes.
Returns the new store state together with the list of Publish events
issued through the MessageBus (topic, payload bytes); the topic is the
uint32_t sum topic_base_ + key. -/
def DataStore.SetRaw (store : StoreState) (key : Nat)
    (data : Option (List Nat)) : StoreState × List (Nat × List Nat) :=
  match data with
  | none => (store, [])
  | some bytes =>
    if !store.inited || bytes.length == 0 then (store, [])
    else if store.config.maxEntrySize < bytes.length then (store, [])
    else
      match lookupEntry store.entries key with
      | none =>
          ({ store with entries := setEntry store.entries key bytes },
           [((store.topicBase + key) % U32, bytes)])
      | some existing =>
          if existing.length ≠ bytes.length ∨ existing ≠ bytes then
            ({ store with entries := setEntry store.entries key bytes },
             [((store.topicBase + key) % U32, bytes)])
          else (store, [])

/-- DataStore::GetRaw (data_store.cc lines 111-130).  `outNull` models a
null out pointer; `out` is the current contents of the caller's buffer and
the second component of the result is its contents afterwards (memcpy of
the stored value only on success). -/
def DataStore.GetRaw (store : StoreState) (key : Nat) (outNull : Bool)
    (out : List Nat) (size : Nat) : Bool × List Nat :=
  if !store.inited || outNull || size == 0 then (false, out)
  else
    match lookupEntry store.entries key with
    | none => (false, out)
    | some v => if v.length = size then (true, v) else (false, out)

/-- DataStore::Unwatch (data_store.cc lines 151-153): an unconditional
forward to MessageBus::Unsubscribe, with no check of the store's own
state. -/
def DataStore.Unwatch (_store : StoreState) (bus : BusState) (id : Nat) :
    BusState :=
  MessageBus.Unsubscribe bus id

/-! ### Concrete fixture states used to evaluate the theorems -/

/-- A store holding the single value [5] under key 1. -/
def sampleStore : StoreState := { inited := true, entries := [(1, [5])] }

/-- A bus with one subscriber on topic 7 throttled to 5 ticks. -/
def sampleBusC2 : BusState :=
  { inited := true,
    subscribers := [⟨1, 7, DeliveryMode.Immediate, 5, 0⟩], nextId := 2 }

/-- The single subscriber entry of sampleBusC2. -/
def sampleSubC2 : SubscriberEntry := ⟨1, 7, DeliveryMode.Immediate, 5, 0⟩

/-- A bus with one unthrottled Immediate subscriber on topic 7. -/
def sampleBusC3 : BusState :=
  { inited := true,
    subscribers := [⟨1, 7, DeliveryMode.Immediate, 0, 0⟩], nextId := 2 }

/-- A bus whose max payload size is 2 bytes. -/
def sampleBusC4 : BusState :=
  { inited := true, config := { maxSubscribers := 32, maxDataSize := 2 } }

/-- A store whose max entry size is 1 byte. -/
def sampleStoreC4 : StoreState :=
  { inited := true, config := { maxEntrySize := 1 } }

/-- A freshly set-up bus with no subscribers and next_id = 1. -/
def sampleBusC7 : BusState := { inited := true }

/-- A bus with an LvglAsync subscriber (id 1) and an Immediate subscriber
(id 2), both on topic 7. -/
def sampleBusC8 : BusState :=
  { inited := true,
    subscribers := [⟨1, 7, DeliveryMode.LvglAsync, 0, 0⟩,
                    ⟨2, 7, DeliveryMode.Immediate, 0, 0⟩],
    nextId := 3 }

/-- The LvglAsync subscriber entry of sampleBusC8. -/
def sampleSubC8 : SubscriberEntry := ⟨1, 7, DeliveryMode.LvglAsync, 0, 0⟩

/-- An allocation oracle on which every malloc succeeds. -/
def allocAllOk : Nat → Bool := fun _ => true

/-- An allocation oracle on which the malloc for subscription id 1 fails. -/
def allocFailC8 : Nat → Bool := fun i => !(i == 1)

/-! ### Helper lemmas about the embedded operations -/

theorem publishScanEntry_id (t n : Nat) (s : SubscriberEntry) :
    (publishScanEntry t n s).id = s.id := by
  unfold publishScanEntry
  split <;> rfl

theorem publishScanEntry_of_not_matches (t n : Nat) (s : SubscriberEntry)
    (h : matchesPred t n s = false) : publishScanEntry t n s = s := by
  simp [publishScanEntry, h]

theorem publishScanEntry_of_matches (t n : Nat) (s : SubscriberEntry)
    (h : matchesPred t n s = true) :
    publishScanEntry t n s = { s with lastDeliveryTick := n } := by
  simp [publishScanEntry, h]

theorem publish_fst (bus : BusState) (t : Nat) (data : List Nat) (now : Nat)
    (allocOk : Nat → Bool) (h : bus.inited = true) :
    (MessageBus.Publish bus t data now allocOk).fst
      = { bus with
            subscribers := bus.subscribers.map (publishScanEntry t now) } := by
  simp [MessageBus.Publish, h]

theorem publish_snd (bus : BusState) (t : Nat) (data : List Nat) (now : Nat)
    (allocOk : Nat → Bool) (h : bus.inited = true) :
    (MessageBus.Publish bus t data now allocOk).snd
      = (bus.subscribers.filter (matchesPred t now)).filterMap
          (deliverOne t (data.take bus.config.maxDataSize) now allocOk) := by
  simp [MessageBus.Publish, h]

theorem publish_not_inited (bus : BusState) (t : Nat) (data : List Nat)
    (now : Nat) (allocOk : Nat → Bool) (h : bus.inited = false) :
    MessageBus.Publish bus t data now allocOk = (bus, []) := by
  simp [MessageBus.Publish, h]

theorem deliverOne_shape (t : Nat) (p : List Nat) (n : Nat) (a : Nat → Bool)
    (s : SubscriberEntry) (d : Delivery)
    (h : deliverOne t p n a s = some d) : d = ⟨s.id, t, p, n⟩ := by
  unfold deliverOne at h
  split at h
  · exact (Option.some.inj h).symm
  · split at h
    · exact (Option.some.inj h).symm
    · exact absurd h (by simp)

theorem mem_publish_snd (bus : BusState) (t : Nat) (data : List Nat)
    (now : Nat) (allocOk : Nat → Bool) (d : Delivery)
    (hd : d ∈ (MessageBus.Publish bus t data now allocOk).snd) :
    ∃ s ∈ bus.subscribers, matchesPred t now s = true ∧
      deliverOne t (data.take bus.config.maxDataSize) now allocOk s
        = some d := by
  by_cases h : bus.inited = true
  · rw [publish_snd bus t data now allocOk h] at hd
    rcases List.mem_filterMap.mp hd with ⟨s, hs, hds⟩
    rcases List.mem_filter.mp hs with ⟨hmem, hpred⟩
    exact ⟨s, hmem, hpred, hds⟩
  · rw [publish_not_inited bus t data now allocOk
      (by simpa using h)] at hd
    simp at hd

theorem publish_snd_mem (bus : BusState) (t : Nat) (data : List Nat)
    (now : Nat) (allocOk : Nat → Bool) (s : SubscriberEntry) (d : Delivery)
    (h : bus.inited = true) (hs : s ∈ bus.subscribers)
    (hm : matchesPred t now s = true)
    (hd : deliverOne t (data.take bus.config.maxDataSize) now allocOk s
            = some d) :
    d ∈ (MessageBus.Publish bus t data now allocOk).snd := by
  rw [publish_snd bus t data now allocOk h]
  exact List.mem_filterMap.mpr ⟨s, List.mem_filter.mpr ⟨hs, hm⟩, hd⟩

theorem eraseFirstId_of_not_mem (l : List SubscriberEntry) (i : Nat)
    (h : ∀ s ∈ l, s.id ≠ i) : eraseFirstId l i = l := by
  induction l with
  | nil => rfl
  | cons s rest ih =>
    rw [eraseFirstId, if_neg (h s (List.mem_cons_self s rest))]
    rw [ih (fun x hx => h x (List.mem_cons_of_mem s hx))]

theorem not_mem_eraseFirstId (l : List SubscriberEntry) (i : Nat)
    (h : l.countP (fun s => s.id == i) ≤ 1) :
    ∀ s ∈ eraseFirstId l i, s.id ≠ i := by
  induction l with
  | nil => intro s hs; simp [eraseFirstId] at hs
  | cons a rest ih =>
    intro s hs
    by_cases ha : a.id = i
    · rw [eraseFirstId, if_pos ha] at hs
      have hsplit : (a :: rest).countP (fun s => s.id == i)
          = rest.countP (fun s => s.id == i) + 1 := by
        rw [List.countP_cons]
        simp [ha]
      have hc : rest.countP (fun s => s.id == i) = 0 := by
        rw [hsplit] at h
        omega
      have := List.countP_eq_zero.mp hc s hs
      simpa using this
    · rw [eraseFirstId, if_neg ha] at hs
      rcases List.mem_cons.mp hs with hsa | hsr
      · subst hsa; exact ha
      · have hsplit : (a :: rest).countP (fun s => s.id == i)
            = rest.countP (fun s => s.id == i) := by
          rw [List.countP_cons]
          simp [ha]
        have hrest : rest.countP (fun s => s.id == i) ≤ 1 := by
          rw [hsplit] at h
          exact h
        exact ih hrest s hsr

theorem unsubscribe_zero (b : BusState) : MessageBus.Unsubscribe b 0 = b := by
  simp [MessageBus.Unsubscribe]

theorem publish_preserves_no_id (bus : BusState) (t : Nat) (data : List Nat)
    (now : Nat) (allocOk : Nat → Bool) (i : Nat)
    (h : ∀ s ∈ bus.subscribers, s.id ≠ i) :
    ∀ s ∈ (MessageBus.Publish bus t data now allocOk).fst.subscribers,
      s.id ≠ i := by
  by_cases hb : bus.inited = true
  · rw [publish_fst bus t data now allocOk hb]
    intro s hs
    rcases List.mem_map.mp hs with ⟨s0, hs0, rfl⟩
    rw [publishScanEntry_id]
    exact h s0 hs0
  · rw [publish_not_inited bus t data now allocOk (by simpa using hb)]
    exact h

theorem publish_no_id_delivery (bus : BusState) (t : Nat) (data : List Nat)
    (now : Nat) (allocOk : Nat → Bool) (i : Nat)
    (h : ∀ s ∈ bus.subscribers, s.id ≠ i) :
    ∀ d ∈ (MessageBus.Publish bus t data now allocOk).snd, d.subId ≠ i := by
  intro d hd
  rcases mem_publish_snd bus t data now allocOk d hd with ⟨s, hs, _, hds⟩
  have hshape := deliverOne_shape _ _ _ _ _ _ hds
  subst hshape
  exact h s hs

theorem publishMany_no_id (allocOk : Nat → Bool) (i : Nat) :
    ∀ (cs : List PubCall) (b : BusState),
      (∀ s ∈ b.subscribers, s.id ≠ i) →
      ∀ d ∈ (publishMany allocOk cs b).snd, d.subId ≠ i := by
  intro cs
  induction cs with
  | nil => intro b _ d hd; simp [publishMany] at hd
  | cons c rest ih =>
    intro b h d hd
    rw [publishMany] at hd
    rcases List.mem_append.mp hd with hd1 | hd2
    · exact publish_no_id_delivery b c.topic c.data c.now allocOk i h d hd1
    · exact ih _ (publish_preserves_no_id b c.topic c.data c.now allocOk i h)
        d hd2

theorem lookupEntry_setEntry_self (l : List (Nat × List Nat)) (k : Nat)
    (v : List Nat) : lookupEntry (setEntry l k v) k = some v := by
  induction l with
  | nil => simp [setEntry, lookupEntry]
  | cons p rest ih =>
    obtain ⟨k0, w⟩ := p
    by_cases hk : k0 = k
    · subst hk
      simp [setEntry, lookupEntry]
    · simp [setEntry, lookupEntry, hk, ih]

theorem mem_of_lookupEntry (l : List (Nat × List Nat)) (k : Nat)
    (v : List Nat) (h : lookupEntry l k = some v) : (k, v) ∈ l := by
  induction l with
  | nil => simp [lookupEntry] at h
  | cons p rest ih =>
    obtain ⟨k0, w⟩ := p
    by_cases hk : k0 = k
    · subst hk
      rw [lookupEntry, if_pos rfl] at h
      injection h with h2
      subst h2
      exact List.mem_cons_self _ _
    · rw [lookupEntry, if_neg hk] at h
      exact List.mem_cons_of_mem _ (ih h)

theorem subscribe_success (b : BusState) (topic : Nat) (mode : DeliveryMode)
    (ms hz : Nat) (h : b.inited = true) :
    MessageBus.Subscribe b topic true mode ms hz
      = ({ b with
            subscribers := b.subscribers ++
              [⟨b.nextId, topic, mode,
                 if ms > 0 then pdMSToTicks hz ms else 0, 0⟩],
            nextId := if (b.nextId + 1) % U32 = 0 then 1
                      else (b.nextId + 1) % U32 },
         b.nextId) := by
  simp [MessageBus.Subscribe, h]

theorem subscribeN_snd (topic : Nat) (mode : DeliveryMode) :
    ∀ (n : Nat) (bus : BusState), bus.inited = true → 1 ≤ bus.nextId →
      bus.nextId + n ≤ U32 →
      (subscribeN topic mode n bus).snd = List.range' bus.nextId n := by
  intro n
  induction n with
  | zero => intro bus _ _ _; rfl
  | succ n ih =>
    intro bus hinit hlo hhi
    rw [subscribeN, subscribe_success bus topic mode 0 0 hinit]
    dsimp only
    rw [List.range'_succ]
    by_cases hw : bus.nextId + 1 = U32
    · have hn : n = 0 := by
        have : U32 = bus.nextId + 1 := hw.symm
        omega
      subst hn
      simp [subscribeN, List.range']
    · have hlt : bus.nextId + 1 < U32 := by
        have : bus.nextId + (n + 1) ≤ U32 := hhi
        omega
      have hmod : (bus.nextId + 1) % U32 = bus.nextId + 1 :=
        Nat.mod_eq_of_lt hlt
      have hne : ¬((bus.nextId + 1) % U32 = 0) := by
        rw [hmod]; omega
      rw [if_neg hne, hmod]
      have h2 := ih { bus with
          subscribers := bus.subscribers ++
            [⟨bus.nextId, topic, mode, if 0 > 0 then pdMSToTicks 0 0 else 0, 0⟩],
          nextId := bus.nextId + 1 }
      dsimp only at h2
      have h3 := h2 hinit (by omega) (by omega)
      simpa using h3

theorem setRaw_body (store : StoreState) (key : Nat) (bytes : List Nat)
    (hinit : store.inited = true) (hnz : bytes.length ≠ 0)
    (hsz : bytes.length ≤ store.config.maxEntrySize) :
    DataStore.SetRaw store key (some bytes)
      = match lookupEntry store.entries key with
        | none =>
            ({ store with entries := setEntry store.entries key bytes },
             [((store.topicBase + key) % U32, bytes)])
        | some existing =>
            if existing.length ≠ bytes.length ∨ existing ≠ bytes then
              ({ store with entries := setEntry store.entries key bytes },
               [((store.topicBase + key) % U32, bytes)])
            else (store, []) := by
  simp only [DataStore.SetRaw]
  have h1 : (!store.inited || bytes.length == 0) = false := by
    simp [hinit, hnz]
  rw [h1]
  simp only [Bool.false_eq_true, if_false]
  rw [if_neg (by omega)]

theorem setRaw_oversize (store : StoreState) (key : Nat) (bytes : List Nat)
    (hbig : store.config.maxEntrySize < bytes.length) :
    DataStore.SetRaw store key (some bytes) = (store, []) := by
  simp only [DataStore.SetRaw]
  by_cases hg : (!store.inited || bytes.length == 0) = true
  · rw [if_pos hg]
  · rw [if_neg hg, if_pos hbig]

theorem unsubscribe_pos (b : BusState) (i : Nat) (hi : i ≠ 0)
    (hb : b.inited = true) :
    MessageBus.Unsubscribe b i
      = { b with subscribers := eraseFirstId b.subscribers i } := by
  unfold MessageBus.Unsubscribe
  rw [if_neg (by simp [hi, hb])]

/-! ### Claim theorems -/

/-- C1: DataStore::SetRaw with a byte sequence identical (same length,
byte-for-byte equal) to the value currently stored under the key leaves
the store unchanged and publishes no notification; SetRaw with a
different value, or with a key not yet present, updates the entry and
causes exactly one MessageBus::Publish on topic topic_base + key carrying
the new value bytes (data_store.cc lines 62-105). -/
theorem setRaw_change_detection (store : StoreState) (key : Nat)
    (bytes : List Nat) (hinit : store.inited = true) (hnz : bytes ≠ [])
    (hsz : bytes.length ≤ store.config.maxEntrySize)
    (hbase : store.topicBase + key < U32) :
    (lookupEntry store.entries key = some bytes →
        DataStore.SetRaw store key (some bytes) = (store, [])) ∧
    (lookupEntry store.entries key ≠ some bytes →
        (DataStore.SetRaw store key (some bytes)).fst
            = { store with entries := setEntry store.entries key bytes } ∧
        lookupEntry (DataStore.SetRaw store key (some bytes)).fst.entries key
            = some bytes ∧
        (DataStore.SetRaw store key (some bytes)).snd
            = [(store.topicBase + key, bytes)]) := by
  have hnz0 : bytes.length ≠ 0 := fun h => hnz (List.length_eq_zero.mp h)
  have hbody := setRaw_body store key bytes hinit hnz0 hsz
  have hmod : (store.topicBase + key) % U32 = store.topicBase + key :=
    Nat.mod_eq_of_lt hbase
  constructor
  · intro hlk
    rw [hbody, hlk]
    simp
  · intro hlk
    cases hcase : lookupEntry store.entries key with
    | none =>
        rw [hbody, hcase]
        refine ⟨rfl, ?_, ?_⟩
        · exact lookupEntry_setEntry_self store.entries key bytes
        · dsimp only
          rw [hmod]
    | some existing =>
        have hne : existing ≠ bytes := fun he => hlk (by rw [hcase, he])
        rw [hbody, hcase]
        dsimp only
        rw [if_pos (Or.inr hne)]
        refine ⟨rfl, ?_, ?_⟩
        · exact lookupEntry_setEntry_self store.entries key bytes
        · dsimp only
          rw [hmod]

/-- C2: a subscriber with min_interval I > 0 is invoked by a Publish on
its topic only when now - last_delivery (uint32 tick arithmetic) reaches
I, in which case last_delivery becomes now; a throttled publish leaves
last_delivery unchanged and never invokes the callback; and Subscribe
stores a fresh entry with last_delivery = 0, so an entry in its initial
state is treated as having last fired at tick 0
(message_bus.cc lines 80-98 and 152-164). -/
theorem publish_throttle_policy (bus : BusState) (topic : Nat)
    (data : List Nat) (now : Nat) (allocOk : Nat → Bool)
    (sub : SubscriberEntry) (hinit : bus.inited = true)
    (hsub : sub ∈ bus.subscribers) (htopic : sub.topic = topic)
    (hI : 0 < sub.minIntervalTicks) :
    (MessageBus.Publish bus topic data now allocOk).fst.subscribers
        = bus.subscribers.map (publishScanEntry topic now) ∧
    (MessageBus.Publish bus topic data now allocOk).snd
        = (bus.subscribers.filter (matchesPred topic now)).filterMap
            (deliverOne topic (data.take bus.config.maxDataSize) now allocOk) ∧
    (elapsed32 now sub.lastDeliveryTick < sub.minIntervalTicks →
        matchesPred topic now sub = false ∧
        publishScanEntry topic now sub = sub ∧
        ((∀ s ∈ bus.subscribers, s.id = sub.id → s = sub) →
          ∀ d ∈ (MessageBus.Publish bus topic data now allocOk).snd,
            d.subId ≠ sub.id)) ∧
    (sub.minIntervalTicks ≤ elapsed32 now sub.lastDeliveryTick →
        matchesPred topic now sub = true ∧
        (publishScanEntry topic now sub).lastDeliveryTick = now) ∧
    (∀ (b : BusState) (t : Nat) (m : DeliveryMode) (ms hz : Nat),
        b.inited = true →
        (MessageBus.Subscribe b t true m ms hz).fst.subscribers
          = b.subscribers ++
            [⟨b.nextId, t, m, if ms > 0 then pdMSToTicks hz ms else 0, 0⟩]) := by
  refine ⟨?_, publish_snd bus topic data now allocOk hinit, ?_, ?_, ?_⟩
  · rw [publish_fst bus topic data now allocOk hinit]
  · intro hel
    have hthr : passesThrottle now sub = false := by
      unfold passesThrottle
      have h1 : (sub.minIntervalTicks == 0) = false := by
        simp
        omega
      have h2 : ¬(sub.minIntervalTicks ≤ elapsed32 now sub.lastDeliveryTick) := by
        omega
      rw [h1]
      simp [h2]
    have hmp : matchesPred topic now sub = false := by
      simp [matchesPred, hthr]
    refine ⟨hmp, publishScanEntry_of_not_matches topic now sub hmp, ?_⟩
    intro huniq d hd
    rcases mem_publish_snd bus topic data now allocOk d hd with ⟨s, hs, hm, hds⟩
    have hshape := deliverOne_shape _ _ _ _ _ _ hds
    subst hshape
    intro heq
    have : s = sub := huniq s hs heq
    subst this
    rw [hmp] at hm
    exact Bool.false_ne_true hm
  · intro hge
    have hthr : passesThrottle now sub = true := by
      unfold passesThrottle
      simp [hge]
    have hmp : matchesPred topic now sub = true := by
      simp [matchesPred, hthr, htopic]
    refine ⟨hmp, ?_⟩
    rw [publishScanEntry_of_matches topic now sub hmp]
  · intro b t m ms hz hb
    rw [subscribe_success b t m ms hz hb]

/-- C3: after Unsubscribe(id) returns, no subsequent Publish on any topic
invokes that subscription's callback; Unsubscribe is idempotent (a second
call with the same id leaves the registry unchanged), and a call with the
reserved invalid id 0 is a no-op
(message_bus.cc lines 104-123 and 150-166). -/
theorem unsubscribe_no_redelivery (bus : BusState) (id : Nat)
    (hinit : bus.inited = true) (hid : id ≠ 0)
    (hcount : bus.subscribers.countP (fun s => s.id == id) ≤ 1) :
    (∀ s ∈ (MessageBus.Unsubscribe bus id).subscribers, s.id ≠ id) ∧
    (∀ (allocOk : Nat → Bool) (calls : List PubCall),
        ∀ d ∈ (publishMany allocOk calls (MessageBus.Unsubscribe bus id)).snd,
          d.subId ≠ id) ∧
    MessageBus.Unsubscribe (MessageBus.Unsubscribe bus id) id
        = MessageBus.Unsubscribe bus id ∧
    (∀ b : BusState, MessageBus.Unsubscribe b 0 = b) := by
  have hclean : ∀ s ∈ (MessageBus.Unsubscribe bus id).subscribers,
      s.id ≠ id := by
    rw [unsubscribe_pos bus id hid hinit]
    exact not_mem_eraseFirstId bus.subscribers id hcount
  refine ⟨hclean, ?_, ?_, unsubscribe_zero⟩
  · intro allocOk calls
    exact publishMany_no_id allocOk id calls _ hclean
  · have hb2 : (MessageBus.Unsubscribe bus id).inited = true := by
      rw [unsubscribe_pos bus id hid hinit]
      exact hinit
    rw [unsubscribe_pos (MessageBus.Unsubscribe bus id) id hid hb2,
        eraseFirstId_of_not_mem _ _ hclean]

/-- C4: oversize handling is asymmetric: a Publish whose size exceeds
max_data_size is truncated to exactly max_data_size and delivery proceeds
with the clipped payload and no error, while a SetRaw whose size exceeds
max_entry_size is rejected entirely, leaving the store unchanged and
publishing nothing (message_bus.cc lines 134-138, data_store.cc 66-71). -/
theorem oversize_asymmetry (bus : BusState) (topic : Nat) (data : List Nat)
    (now : Nat) (allocOk : Nat → Bool) (store : StoreState) (key : Nat)
    (bytes : List Nat)
    (hbi : bus.inited = true) (hbig : bus.config.maxDataSize < data.length)
    (_hsi : store.inited = true)
    (hbig2 : store.config.maxEntrySize < bytes.length) :
    (∀ d ∈ (MessageBus.Publish bus topic data now allocOk).snd,
        d.payload = data.take bus.config.maxDataSize ∧
        d.payload.length = bus.config.maxDataSize) ∧
    (MessageBus.Publish bus topic data now allocOk).snd
        = (bus.subscribers.filter (matchesPred topic now)).filterMap
            (deliverOne topic (data.take bus.config.maxDataSize) now allocOk) ∧
    DataStore.SetRaw store key (some bytes) = (store, []) := by
  refine ⟨?_, publish_snd bus topic data now allocOk hbi,
    setRaw_oversize store key bytes hbig2⟩
  intro d hd
  rcases mem_publish_snd bus topic data now allocOk d hd with ⟨s, _, _, hds⟩
  have hshape := deliverOne_shape _ _ _ _ _ _ hds
  subst hshape
  refine ⟨rfl, ?_⟩
  dsimp only
  rw [List.length_take]
  exact Nat.min_eq_left (Nat.le_of_lt hbig)

/-- C5: Publish delivers only to subscriber entries whose stored topic
equals the published topic exactly; a subscriber registered on any other
topic receives nothing from that publish (message_bus.cc lines 150-166). -/
theorem publish_exact_topic (bus : BusState) (topic : Nat) (data : List Nat)
    (now : Nat) (allocOk : Nat → Bool) :
    (∀ d ∈ (MessageBus.Publish bus topic data now allocOk).snd,
        d.topic = topic ∧
        ∃ s ∈ bus.subscribers, s.id = d.subId ∧ s.topic = topic) ∧
    (∀ i : Nat, (∀ s ∈ bus.subscribers, s.id = i → s.topic ≠ topic) →
        ∀ d ∈ (MessageBus.Publish bus topic data now allocOk).snd,
          d.subId ≠ i) := by
  constructor
  · intro d hd
    rcases mem_publish_snd bus topic data now allocOk d hd with ⟨s, hs, hm, hds⟩
    have hshape := deliverOne_shape _ _ _ _ _ _ hds
    subst hshape
    have htop : s.topic = topic := by
      simp [matchesPred] at hm
      exact hm.1
    exact ⟨rfl, s, hs, rfl, htop⟩
  · intro i hother d hd
    rcases mem_publish_snd bus topic data now allocOk d hd with ⟨s, hs, hm, hds⟩
    have hshape := deliverOne_shape _ _ _ _ _ _ hds
    subst hshape
    intro heq
    have htop : s.topic = topic := by
      simp [matchesPred] at hm
      exact hm.1
    exact hother s hs heq htop

/-- C6: on any store reachable through the API (uninitialized stores are
empty and stored values are never empty), GetRaw with a non-null output
buffer returns true and copies the stored bytes iff the key exists and
the stored size exactly equals the requested size; in every other case it
returns false and leaves the buffer unmodified
(data_store.cc lines 111-130). -/
theorem getRaw_contract (store : StoreState) (key : Nat) (out : List Nat)
    (size : Nat)
    (hreach : store.inited = false → store.entries = [])
    (hvals : ∀ kv ∈ store.entries, kv.2 ≠ ([] : List Nat)) :
    ((DataStore.GetRaw store key false out size).fst = true ↔
        ∃ v, lookupEntry store.entries key = some v ∧ v.length = size) ∧
    (∀ v, lookupEntry store.entries key = some v → v.length = size →
        DataStore.GetRaw store key false out size = (true, v)) ∧
    ((DataStore.GetRaw store key false out size).fst = false →
        (DataStore.GetRaw store key false out size).snd = out) := by
  by_cases hi : store.inited = true
  · by_cases hs0 : size = 0
    · have hget : DataStore.GetRaw store key false out size = (false, out) := by
        simp only [DataStore.GetRaw]
        rw [if_pos (by simp [hs0])]
      have hnokey : ∀ v, lookupEntry store.entries key = some v →
          v.length ≠ size := by
        intro v hv hlen
        have hvne := hvals (key, v) (mem_of_lookupEntry store.entries key v hv)
        apply hvne
        have : v.length = 0 := by omega
        exact List.length_eq_zero.mp this
      refine ⟨?_, ?_, ?_⟩
      · rw [hget]
        simp only [Bool.false_eq_true, false_iff]
        rintro ⟨v, hv, hlen⟩
        exact hnokey v hv hlen
      · intro v hv hlen
        exact absurd hlen (hnokey v hv)
      · intro _
        rw [hget]
    · have hguard : (!store.inited || false || size == 0) = false := by
        simp [hi, hs0]
      have hbody : DataStore.GetRaw store key false out size
          = match lookupEntry store.entries key with
            | none => (false, out)
            | some v => if v.length = size then (true, v) else (false, out) := by
        simp only [DataStore.GetRaw]
        rw [hguard]
        simp only [Bool.false_eq_true, if_false]
      cases hcase : lookupEntry store.entries key with
      | none =>
          rw [hbody, hcase]
          dsimp only
          refine ⟨?_, ?_, ?_⟩
          · simp
          · intro v hv
            exact absurd hv (by simp)
          · intro _
            rfl
      | some v =>
          rw [hbody, hcase]
          dsimp only
          by_cases hl : v.length = size
          · rw [if_pos hl]
            refine ⟨?_, ?_, ?_⟩
            · simp [hl]
            · intro w hw _
              injection hw with hw2
              rw [hw2]
            · intro hfalse
              exact absurd hfalse (by simp)
          · rw [if_neg hl]
            refine ⟨?_, ?_, ?_⟩
            · simp [hl]
            · intro w hw hwl
              injection hw with hw2
              rw [← hw2] at hwl
              exact absurd hwl hl
            · intro _
              rfl
  · have hfalse : store.inited = false := by
      simpa using hi
    have hent := hreach hfalse
    have hlk : lookupEntry store.entries key = none := by
      rw [hent]
      rfl
    have hget : DataStore.GetRaw store key false out size = (false, out) := by
      simp only [DataStore.GetRaw]
      rw [if_pos (by simp [hfalse])]
    refine ⟨?_, ?_, ?_⟩
    · rw [hget]
      simp [hlk]
    · intro v hv
      rw [hlk] at hv
      cases hv
    · intro _
      rw [hget]

/-- C7: successive successful Subscribe calls return nonzero, pairwise
distinct ids (the consecutive values of the monotonically increasing
32-bit counter) as long as the counter does not wrap, and the counter
skips the reserved value 0 on wraparound, so no successful Subscribe ever
returns the invalid id (message_bus.cc lines 80-90). -/
theorem subscribe_ids_unique (bus : BusState) (topic : Nat)
    (mode : DeliveryMode) (n : Nat) (hinit : bus.inited = true)
    (hlo : 1 ≤ bus.nextId) (hhi : bus.nextId + n ≤ U32) :
    (subscribeN topic mode n bus).snd = List.range' bus.nextId n ∧
    (∀ i ∈ (subscribeN topic mode n bus).snd, i ≠ 0) ∧
    (subscribeN topic mode n bus).snd.Nodup ∧
    (∀ b : BusState, b.inited = true → 1 ≤ b.nextId → b.nextId < U32 →
        (MessageBus.Subscribe b topic true mode 0 0).snd = b.nextId ∧
        (MessageBus.Subscribe b topic true mode 0 0).snd ≠ 0 ∧
        1 ≤ (MessageBus.Subscribe b topic true mode 0 0).fst.nextId ∧
        (MessageBus.Subscribe b topic true mode 0 0).fst.nextId < U32) := by
  have hsnd := subscribeN_snd topic mode n bus hinit hlo hhi
  refine ⟨hsnd, ?_, ?_, ?_⟩
  · intro i hi
    rw [hsnd] at hi
    have := List.mem_range'_1.mp hi
    omega
  · rw [hsnd]
    exact List.nodup_range' _ _
  · intro b hb hb1 hb2
    rw [subscribe_success b topic mode 0 0 hb]
    dsimp only
    refine ⟨rfl, by omega, ?_, ?_⟩
    · by_cases hz : (b.nextId + 1) % U32 = 0
      · rw [if_pos hz]
      · rw [if_neg hz]
        omega
    · by_cases hz : (b.nextId + 1) % U32 = 0
      · rw [if_pos hz]
        norm_num [U32]
      · rw [if_neg hz]
        exact Nat.mod_lt _ (by norm_num [U32])

/-- C8: a matched subscriber's last_delivery tick is updated at snapshot
time, before any delivery is attempted, so an LvglAsync delivery dropped
by a failed payload-block allocation still consumes that subscriber's
throttle window, while the remaining matched subscribers of the same
publish are still delivered to (message_bus.cc lines 152-164, 178-197). -/
theorem async_alloc_fail_consumes_throttle (bus : BusState) (topic : Nat)
    (data : List Nat) (now : Nat) (allocOk : Nat → Bool)
    (sub : SubscriberEntry) (hinit : bus.inited = true)
    (hsub : sub ∈ bus.subscribers) (htopic : sub.topic = topic)
    (hpass : passesThrottle now sub = true)
    (hmode : sub.mode = DeliveryMode.LvglAsync)
    (halloc : allocOk sub.id = false)
    (huniq : ∀ s ∈ bus.subscribers, s.id = sub.id → s = sub) :
    { sub with lastDeliveryTick := now }
        ∈ (MessageBus.Publish bus topic data now allocOk).fst.subscribers ∧
    (∀ d ∈ (MessageBus.Publish bus topic data now allocOk).snd,
        d.subId ≠ sub.id) ∧
    (∀ s ∈ bus.subscribers, s.topic = topic → passesThrottle now s = true →
        (s.mode = DeliveryMode.Immediate ∨
          (s.mode = DeliveryMode.LvglAsync ∧ allocOk s.id = true)) →
        (⟨s.id, topic, data.take bus.config.maxDataSize, now⟩ : Delivery)
            ∈ (MessageBus.Publish bus topic data now allocOk).snd) := by
  have hmp : matchesPred topic now sub = true := by
    simp [matchesPred, htopic, hpass]
  refine ⟨?_, ?_, ?_⟩
  · rw [publish_fst bus topic data now allocOk hinit]
    have hscan := publishScanEntry_of_matches topic now sub hmp
    rw [← hscan]
    exact List.mem_map_of_mem _ hsub
  · intro d hd
    rcases mem_publish_snd bus topic data now allocOk d hd with ⟨s, hs, _, hds⟩
    have hshape := deliverOne_shape _ _ _ _ _ _ hds
    subst hshape
    intro heq
    have hse : s = sub := huniq s hs heq
    subst hse
    simp [deliverOne, hmode, halloc] at hds
  · intro s hs hst hsp hcase
    have hm : matchesPred topic now s = true := by
      simp [matchesPred, hst, hsp]
    have hdel : deliverOne topic (data.take bus.config.maxDataSize) now allocOk s
        = some ⟨s.id, topic, data.take bus.config.maxDataSize, now⟩ := by
      rcases hcase with hImm | ⟨hAs, hOk⟩
      · simp [deliverOne, hImm]
      · simp [deliverOne, hAs, hOk]
    exact publish_snd_mem bus topic data now allocOk s _ hinit hs hm hdel

/-- C9: DataStore::Unwatch performs no initialization check of its own and
simply forwards to MessageBus::Unsubscribe, so calling it on an
uninitialized store behaves exactly like Unsubscribe on the bus,
including the no-op for the invalid id 0 (data_store.cc lines 151-153). -/
theorem unwatch_forwards (store : StoreState) (bus : BusState) (id : Nat)
    (_hstore : store.inited = false) :
    DataStore.Unwatch store bus id = MessageBus.Unsubscribe bus id ∧
    DataStore.Unwatch store bus 0 = bus :=
  ⟨rfl, unsubscribe_zero bus⟩

/-- C10: GetRaw returns false without touching the store or the output
buffer whenever the store is uninitialized, the output pointer is null,
or the requested size is zero (data_store.cc lines 111-114). -/
theorem getRaw_guard_rejects (store : StoreState) (key : Nat)
    (outNull : Bool) (out : List Nat) (size : Nat)
    (h : store.inited = false ∨ outNull = true ∨ size = 0) :
    DataStore.GetRaw store key outNull out size = (false, out) := by
  simp only [DataStore.GetRaw]
  rw [if_pos]
  rcases h with h | h | h <;> simp [h]

/-! ### Concrete witnesses -/

/-- Witness for C1 at a concrete store holding [5] under key 1. -/
theorem setRaw_change_detection_witness :
    sampleStore.inited = true ∧
    ([5] ≠ ([] : List Nat)) ∧
    ([5] : List Nat).length ≤ sampleStore.config.maxEntrySize ∧
    sampleStore.topicBase + 1 < U32 ∧
    ((lookupEntry sampleStore.entries 1 = some [5] →
        DataStore.SetRaw sampleStore 1 (some [5]) = (sampleStore, [])) ∧
     (lookupEntry sampleStore.entries 1 ≠ some [5] →
        (DataStore.SetRaw sampleStore 1 (some [5])).fst
            = { sampleStore with
                  entries := setEntry sampleStore.entries 1 [5] } ∧
        lookupEntry (DataStore.SetRaw sampleStore 1 (some [5])).fst.entries 1
            = some [5] ∧
        (DataStore.SetRaw sampleStore 1 (some [5])).snd
            = [(sampleStore.topicBase + 1, [5])])) :=
  ⟨by decide, by decide, by decide, by decide,
   setRaw_change_detection sampleStore 1 [5]
     (by decide) (by decide) (by decide) (by decide)⟩

/-- Witness for C2: one subscriber throttled to 5 ticks, publish at tick 3. -/
theorem publish_throttle_policy_witness :
    sampleBusC2.inited = true ∧
    sampleSubC2 ∈ sampleBusC2.subscribers ∧
    sampleSubC2.topic = 7 ∧
    0 < sampleSubC2.minIntervalTicks ∧
    ((MessageBus.Publish sampleBusC2 7 [1] 3 allocAllOk).fst.subscribers
        = sampleBusC2.subscribers.map (publishScanEntry 7 3) ∧
     (MessageBus.Publish sampleBusC2 7 [1] 3 allocAllOk).snd
        = (sampleBusC2.subscribers.filter (matchesPred 7 3)).filterMap
            (deliverOne 7 ([1].take sampleBusC2.config.maxDataSize) 3
              allocAllOk) ∧
     (elapsed32 3 sampleSubC2.lastDeliveryTick < sampleSubC2.minIntervalTicks →
        matchesPred 7 3 sampleSubC2 = false ∧
        publishScanEntry 7 3 sampleSubC2 = sampleSubC2 ∧
        ((∀ s ∈ sampleBusC2.subscribers,
            s.id = sampleSubC2.id → s = sampleSubC2) →
          ∀ d ∈ (MessageBus.Publish sampleBusC2 7 [1] 3 allocAllOk).snd,
            d.subId ≠ sampleSubC2.id)) ∧
     (sampleSubC2.minIntervalTicks ≤ elapsed32 3 sampleSubC2.lastDeliveryTick →
        matchesPred 7 3 sampleSubC2 = true ∧
        (publishScanEntry 7 3 sampleSubC2).lastDeliveryTick = 3) ∧
     (∀ (b : BusState) (t : Nat) (m : DeliveryMode) (ms hz : Nat),
        b.inited = true →
        (MessageBus.Subscribe b t true m ms hz).fst.subscribers
          = b.subscribers ++
            [⟨b.nextId, t, m, if ms > 0 then pdMSToTicks hz ms else 0, 0⟩])) :=
  ⟨by decide, by decide, by decide, by decide,
   publish_throttle_policy sampleBusC2 7 [1] 3 allocAllOk sampleSubC2
     (by decide) (by decide) (by decide) (by decide)⟩

/-- Witness for C3: unsubscribing the only subscriber, id 1. -/
theorem unsubscribe_no_redelivery_witness :
    sampleBusC3.inited = true ∧ (1 : Nat) ≠ 0 ∧
    sampleBusC3.subscribers.countP (fun s => s.id == 1) ≤ 1 ∧
    ((∀ s ∈ (MessageBus.Unsubscribe sampleBusC3 1).subscribers, s.id ≠ 1) ∧
     (∀ (allocOk : Nat → Bool) (calls : List PubCall),
        ∀ d ∈ (publishMany allocOk calls
                 (MessageBus.Unsubscribe sampleBusC3 1)).snd,
          d.subId ≠ 1) ∧
     MessageBus.Unsubscribe (MessageBus.Unsubscribe sampleBusC3 1) 1
        = MessageBus.Unsubscribe sampleBusC3 1 ∧
     (∀ b : BusState, MessageBus.Unsubscribe b 0 = b)) :=
  ⟨by decide, by decide, by decide,
   unsubscribe_no_redelivery sampleBusC3 1 (by decide) (by decide) (by decide)⟩

/-- Witness for C4: a 3-byte publish on a 2-byte bus and a 2-byte SetRaw on
a 1-byte store. -/
theorem oversize_asymmetry_witness :
    sampleBusC4.inited = true ∧
    sampleBusC4.config.maxDataSize < ([1, 2, 3] : List Nat).length ∧
    sampleStoreC4.inited = true ∧
    sampleStoreC4.config.maxEntrySize < ([4, 5] : List Nat).length ∧
    ((∀ d ∈ (MessageBus.Publish sampleBusC4 9 [1, 2, 3] 0 allocAllOk).snd,
        d.payload = [1, 2, 3].take sampleBusC4.config.maxDataSize ∧
        d.payload.length = sampleBusC4.config.maxDataSize) ∧
     (MessageBus.Publish sampleBusC4 9 [1, 2, 3] 0 allocAllOk).snd
        = (sampleBusC4.subscribers.filter (matchesPred 9 0)).filterMap
            (deliverOne 9 ([1, 2, 3].take sampleBusC4.config.maxDataSize) 0
              allocAllOk) ∧
     DataStore.SetRaw sampleStoreC4 2 (some [4, 5]) = (sampleStoreC4, [])) :=
  ⟨by decide, by decide, by decide, by decide,
   oversize_asymmetry sampleBusC4 9 [1, 2, 3] 0 allocAllOk sampleStoreC4 2
     [4, 5] (by decide) (by decide) (by decide) (by decide)⟩

/-- Witness for C6: reading key 1 (stored size 1) with requested size 1. -/
theorem getRaw_contract_witness :
    (sampleStore.inited = false → sampleStore.entries = []) ∧
    (∀ kv ∈ sampleStore.entries, kv.2 ≠ ([] : List Nat)) ∧
    (((DataStore.GetRaw sampleStore 1 false [9] 1).fst = true ↔
        ∃ v, lookupEntry sampleStore.entries 1 = some v ∧ v.length = 1) ∧
     (∀ v, lookupEntry sampleStore.entries 1 = some v → v.length = 1 →
        DataStore.GetRaw sampleStore 1 false [9] 1 = (true, v)) ∧
     ((DataStore.GetRaw sampleStore 1 false [9] 1).fst = false →
        (DataStore.GetRaw sampleStore 1 false [9] 1).snd = [9])) :=
  ⟨by decide, by decide,
   getRaw_contract sampleStore 1 [9] 1 (by decide) (by decide)⟩

/-- Witness for C7: three Subscribes on a fresh bus yield ids 1, 2, 3. -/
theorem subscribe_ids_unique_witness :
    sampleBusC7.inited = true ∧
    1 ≤ sampleBusC7.nextId ∧
    sampleBusC7.nextId + 3 ≤ U32 ∧
    ((subscribeN 7 DeliveryMode.Immediate 3 sampleBusC7).snd
        = List.range' sampleBusC7.nextId 3 ∧
     (∀ i ∈ (subscribeN 7 DeliveryMode.Immediate 3 sampleBusC7).snd, i ≠ 0) ∧
     (subscribeN 7 DeliveryMode.Immediate 3 sampleBusC7).snd.Nodup ∧
     (∀ b : BusState, b.inited = true → 1 ≤ b.nextId → b.nextId < U32 →
        (MessageBus.Subscribe b 7 true DeliveryMode.Immediate 0 0).snd
            = b.nextId ∧
        (MessageBus.Subscribe b 7 true DeliveryMode.Immediate 0 0).snd ≠ 0 ∧
        1 ≤ (MessageBus.Subscribe b 7 true DeliveryMode.Immediate 0 0).fst.nextId ∧
        (MessageBus.Subscribe b 7 true DeliveryMode.Immediate 0 0).fst.nextId
            < U32)) :=
  ⟨by decide, by decide, by decide,
   subscribe_ids_unique sampleBusC7 7 DeliveryMode.Immediate 3
     (by decide) (by decide) (by decide)⟩

/-- Witness for C8: the async subscriber id 1 loses its malloc while the
Immediate subscriber id 2 is still delivered to. -/
theorem async_alloc_fail_witness :
    sampleBusC8.inited = true ∧
    sampleSubC8 ∈ sampleBusC8.subscribers ∧
    sampleSubC8.topic = 7 ∧
    passesThrottle 5 sampleSubC8 = true ∧
    sampleSubC8.mode = DeliveryMode.LvglAsync ∧
    allocFailC8 sampleSubC8.id = false ∧
    (∀ s ∈ sampleBusC8.subscribers, s.id = sampleSubC8.id → s = sampleSubC8) ∧
    (({ sampleSubC8 with lastDeliveryTick := 5 }
        ∈ (MessageBus.Publish sampleBusC8 7 [4] 5 allocFailC8).fst.subscribers) ∧
     (∀ d ∈ (MessageBus.Publish sampleBusC8 7 [4] 5 allocFailC8).snd,
        d.subId ≠ sampleSubC8.id) ∧
     (∀ s ∈ sampleBusC8.subscribers, s.topic = 7 → passesThrottle 5 s = true →
        (s.mode = DeliveryMode.Immediate ∨
          (s.mode = DeliveryMode.LvglAsync ∧ allocFailC8 s.id = true)) →
        (⟨s.id, 7, [4].take sampleBusC8.config.maxDataSize, 5⟩ : Delivery)
            ∈ (MessageBus.Publish sampleBusC8 7 [4] 5 allocFailC8).snd)) :=
  ⟨by decide, by decide, by decide, by decide, by decide, by decide, by decide,
   async_alloc_fail_consumes_throttle sampleBusC8 7 [4] 5 allocFailC8
     sampleSubC8 (by decide) (by decide) (by decide) (by decide) (by decide)
     (by decide) (by decide)⟩

/-- Witness for C9: Unwatch on a default (uninitialized) store. -/
theorem unwatch_forwards_witness :
    ({} : StoreState).inited = false ∧
    (DataStore.Unwatch ({} : StoreState) sampleBusC3 5
        = MessageBus.Unsubscribe sampleBusC3 5 ∧
     DataStore.Unwatch ({} : StoreState) sampleBusC3 0 = sampleBusC3) :=
  ⟨by decide, unwatch_forwards ({} : StoreState) sampleBusC3 5 (by decide)⟩

/-- Witness for C10: GetRaw on an uninitialized store fails and keeps the
buffer. -/
theorem getRaw_guard_rejects_witness :
    (({} : StoreState).inited = false ∨ (false : Bool) = true ∨ (4 : Nat) = 0) ∧
    DataStore.GetRaw ({} : StoreState) 0 false [3] 4 = (false, [3]) :=
  ⟨Or.inl (by decide),
   getRaw_guard_rejects ({} : StoreState) 0 false [3] 4 (Or.inl (by decide))⟩

end msgbus
